import Mathlib

/-!
Verification of the Talk-To-Study session state machine.

This file gives a shallow embedding of the app-level controller in
`src/App.tsx` (state hooks, `handleFileChange`, `handleAnalyze`,
`stopSpeaking`, `togglePause`, `speakContent`, the `speechVolume` effect,
`handleSendMessage`, the speech-recognition `onresult` handler), of
`askFollowUpQuestion` from `src/services/geminiService.ts`, and of the
volume slider of `ResultPanel`.  React state updates are modelled as pure
record updates applied synchronously; calls into the browser speech
backend and into the two network collaborators are recorded as an ordered
list of effects emitted by each operation.  Asynchronous completions
(promise resolution of the analyzer / responder, file-reader results,
utterance boundary and end events) are modelled as separate step functions
taking the completion datum as an argument.
-/

namespace TalkToStudy

/-- The `AppLanguage` enum of `types.ts`. -/
inductive AppLanguage
  | english | hindi | spanish | french | german
  | chinese | japanese | arabic | portuguese | russian
deriving DecidableEq

/-- The `voiceCode` column of `LANGUAGE_CONFIG` in `App.tsx`. -/
def voiceCode : AppLanguage → String
  | .english => "en-US"
  | .hindi => "hi-IN"
  | .spanish => "es-ES"
  | .french => "fr-FR"
  | .german => "de-DE"
  | .chinese => "zh-CN"
  | .japanese => "ja-JP"
  | .arabic => "ar-SA"
  | .portuguese => "pt-BR"
  | .russian => "ru-RU"

/-- The `code` column of `LANGUAGE_CONFIG` in `App.tsx` (recognition locale).
In the source the two columns coincide. -/
def langCode : AppLanguage → String := voiceCode

/-- The `LearningContent` interface of `types.ts`. -/
structure LearningContent where
  topic : String
  short_reading : String
  simple_explanation : String
  key_points : List String
  «example» : String
  quiz : String
deriving DecidableEq

/-- The `role` field of `ChatMessage` (`'user' | 'assistant'`). -/
inductive ChatRole
  | user | assistant
deriving DecidableEq

/-- The `ChatMessage` interface of `types.ts`. -/
structure ChatMessage where
  role : ChatRole
  text : String
deriving DecidableEq

/-- A `SpeechSynthesisUtterance` as configured by `speakContent`:
its text, locale tag, rate and volume. -/
structure Utterance where
  text : String
  lang : String
  rate : ℚ
  volume : ℚ
deriving DecidableEq

/-- Outbound calls an operation makes into the speech backend or the two
network collaborators, in the order the source issues them. -/
inductive Effect
  | synthCancel
  | synthSpeak (u : Utterance)
  | synthPause
  | synthResume
  | analyzeRequest (image : String) (lang : AppLanguage)
  | chatRequest (context : String) (history : List ChatMessage) (lang : AppLanguage)
deriving DecidableEq

/-- The `useState` hooks of `App` plus the `currentUtteranceRef` ref. -/
structure AppState where
  image : Option String
  loading : Bool
  error : Option String
  content : Option LearningContent
  language : AppLanguage
  isSpeaking : Bool
  speechProgress : ℚ
  isPaused : Bool
  speechVolume : ℚ
  chatInput : String
  chatLoading : Bool
  messages : List ChatMessage
  isListening : Bool
  currentUtterance : Option Utterance
deriving DecidableEq

/-- The initial values of the `useState` hooks in `App`. -/
def initialState : AppState :=
  { image := none
    loading := false
    error := none
    content := none
    language := .english
    isSpeaking := false
    speechProgress := 0
    isPaused := false
    speechVolume := 1
    chatInput := ""
    chatLoading := false
    messages := []
    isListening := false
    currentUtterance := none }

/-- JavaScript `s.startsWith(pre)`, on the character sequences. -/
def strStartsWith (s pre : String) : Bool :=
  pre.toList.isPrefixOf s.toList

/-- JavaScript `!text.trim()`: the string trims to the empty string,
i.e. every character is whitespace. -/
def isBlank (s : String) : Bool :=
  s.toList.all Char.isWhitespace

/-- Error message set by `handleFileChange` for a non-image MIME type. -/
def unsupportedFormatMsg : String :=
  "Unsupported file format. Please upload a valid image (JPEG, PNG)."

/-- Error message set by `handleFileChange` for an oversized file. -/
def tooLargeMsg : String :=
  "Image is too large. Please use an image under 10MB."

/-- Error message set by `handleFileChange` when reading the file fails. -/
def readFailureMsg : String :=
  "Failed to process image file."

/-- Error message set by `handleAnalyze` when the analyzer call raises. -/
def analyzeErrorMsg : String :=
  "Unable to analyze the image. Please ensure the image is clear and try again."

/-- A file presented to `handleFileChange`: its MIME `type` and `size`. -/
structure UploadedFile where
  type : String
  size : Nat
deriving DecidableEq

/-- Which branch of `handleFileChange` fired. -/
inductive IntakeOutcome
  | unsupportedFormat | tooLarge | accepted | readFailure
deriving DecidableEq

/-- `handleFileChange` (App.tsx lines 105-129).  `readResult` is the
outcome of the asynchronous `fileToBase64` call: the base64 payload on
success, or a reader error. -/
def handleFileChange (s : AppState) (file : UploadedFile)
    (readResult : Except Unit String) : AppState × IntakeOutcome :=
  let s0 := { s with error := none }
  if strStartsWith file.type "image/" = false then
    ({ s0 with error := some unsupportedFormatMsg }, .unsupportedFormat)
  else if file.size > 10 * 1024 * 1024 then
    ({ s0 with error := some tooLargeMsg }, .tooLarge)
  else
    match readResult with
    | .ok base64 => ({ s0 with image := some base64, content := none }, .accepted)
    | .error _ => ({ s0 with error := some readFailureMsg }, .readFailure)

/-- `stopSpeaking` (App.tsx lines 150-156): cancel the synthesizer, clear
the speaking/paused flags, reset progress to 0, drop the utterance ref. -/
def stopSpeaking (s : AppState) : AppState × List Effect :=
  ({ s with isSpeaking := false
            isPaused := false
            speechProgress := 0
            currentUtterance := none },
   [Effect.synthCancel])

/-- `togglePause` (App.tsx lines 158-166): if paused, resume and clear the
flag; otherwise pause and set the flag. -/
def togglePause (s : AppState) : AppState × List Effect :=
  if s.isPaused then
    ({ s with isPaused := false }, [Effect.synthResume])
  else
    ({ s with isPaused := true }, [Effect.synthPause])

/-- JavaScript `forceLang || LANGUAGE_CONFIG[language].voiceCode`
(the empty string is falsy). -/
def resolveLang (s : AppState) (forceLang : Option String) : String :=
  match forceLang with
  | some l => if l = "" then voiceCode s.language else l
  | none => voiceCode s.language

/-- `speakContent` (App.tsx lines 168-200): stop any current narration,
then configure a fresh utterance (rate 0.9, current volume) and speak it. -/
def speakContent (s : AppState) (text : String) (forceLang : Option String) :
    AppState × List Effect :=
  let p := stopSpeaking s
  let utt : Utterance :=
    { text := text
      lang := resolveLang s forceLang
      rate := 9 / 10
      volume := s.speechVolume }
  ({ p.1 with currentUtterance := some utt, isSpeaking := true },
   p.2 ++ [Effect.synthSpeak utt])

/-- The `handleAnalyze` prefix up to and including the analyzer request
(App.tsx lines 131-138): guard on `image`, set `loading`, clear `error`,
stop narration, issue the analyzer call. -/
def handleAnalyzeStart (s : AppState) : AppState × List Effect :=
  match s.image with
  | none => (s, [])
  | some img =>
      let p := stopSpeaking { s with loading := true, error := none }
      (p.1, p.2 ++ [Effect.analyzeRequest img s.language])

/-- The continuation of `handleAnalyze` once the analyzer promise settles
(App.tsx lines 138-146): store the record and clear the chat on success,
set the error message on failure, and in both cases (`finally`) clear
`loading`. -/
def handleAnalyzeComplete (s : AppState)
    (result : Except Unit LearningContent) : AppState :=
  match result with
  | .ok record =>
      { s with content := some record, messages := [], loading := false }
  | .error _ =>
      { s with error := some analyzeErrorMsg, loading := false }

/-- The `disabled` condition of the Analyze button (App.tsx line 362):
`!image || loading`. -/
def analyzeButtonDisabled (s : AppState) : Bool :=
  s.image.isNone || s.loading

/-- A user press of the Analyze button (App.tsx lines 360-372): a disabled
button dispatches nothing, otherwise `handleAnalyze` runs.  This is the
only call site of `handleAnalyze` in the source. -/
def clickAnalyze (s : AppState) : AppState × List Effect :=
  if analyzeButtonDisabled s then (s, []) else handleAnalyzeStart s

/-- The `useEffect` on `speechVolume` (App.tsx lines 214-218): if an
utterance ref is live, update its volume to the stored value. -/
def volumeEffectStep (s : AppState) : AppState :=
  match s.currentUtterance with
  | none => s
  | some u => { s with currentUtterance := some { u with volume := s.speechVolume } }

/-- `setVolume` as invoked by the `ResultPanel` slider `onChange`
(`ResultPanel`, volume slider): store the parsed value in `speechVolume`. -/
def setVolume (s : AppState) (v : ℚ) : AppState :=
  { s with speechVolume := v }

/-- The value constraint the volume slider's `min="0" max="1"` attributes
impose on values it can deliver to `setVolume`. -/
def sliderConstrained (v : ℚ) : Prop :=
  0 ≤ v ∧ v ≤ 1

/-- JavaScript `textOverride || chatInput` at the top of
`handleSendMessage` (the empty string is falsy). -/
def resolveMessageText (s : AppState) (textOverride : Option String) : String :=
  match textOverride with
  | some t => if t = "" then s.chatInput else t
  | none => s.chatInput

/-- The template literal `context` built in `handleSendMessage`
(App.tsx lines 243-249). -/
def buildChatContext (c : LearningContent) : String :=
  "\n      Topic: " ++ c.topic ++
  "\n      Extracted Text: " ++ c.short_reading ++
  "\n      Explanation: " ++ c.simple_explanation ++
  "\n      Key Points: " ++ String.intercalate "\n" c.key_points ++
  "\n      Example: " ++ c.«example» ++ "\n    "

/-- The `handleSendMessage` prefix up to and including the responder
request (App.tsx lines 230-254): resolve the text, bail out if it is blank
or no content exists, otherwise append the user turn, clear the input, set
`chatLoading`, and call the responder with the context, the history
including the new user turn, and the selected language. -/
def handleSendMessageStart (s : AppState) (textOverride : Option String) :
    AppState × List Effect :=
  let text := resolveMessageText s textOverride
  if isBlank text then (s, [])
  else
    match s.content with
    | none => (s, [])
    | some c =>
        let userMsg : ChatMessage := { role := .user, text := text }
        let currentHistory := s.messages ++ [userMsg]
        ({ s with messages := s.messages ++ [userMsg]
                  chatInput := ""
                  chatLoading := true },
         [Effect.chatRequest (buildChatContext c) currentHistory s.language])

/-- The continuation of `handleSendMessage` once the responder answers
(App.tsx lines 256-261): append the assistant turn, clear `chatLoading`,
and auto-speak the answer. -/
def handleSendMessageComplete (s : AppState) (responseText : String) :
    AppState × List Effect :=
  let aiMsg : ChatMessage := { role := .assistant, text := responseText }
  speakContent
    { s with messages := s.messages ++ [aiMsg], chatLoading := false }
    responseText none

/-- The speech-recognition `onresult` handler (App.tsx lines 77-81): put
the transcript into the input buffer and auto-send it. -/
def recognitionOnResult (s : AppState) (transcript : String) :
    AppState × List Effect :=
  handleSendMessageStart { s with chatInput := transcript } (some transcript)

/-- Fallback returned by `askFollowUpQuestion` when the request raises. -/
def chatErrorFallback : String :=
  "Sorry, I am having trouble connecting to the brain right now."

/-- Fallback returned by `askFollowUpQuestion` when the model yields no
text (`response.text` absent or empty, hence falsy). -/
def emptyResponseFallback : String :=
  "I couldn't generate an answer at the moment."

/-- Outcome of the underlying `generateContent` request inside
`askFollowUpQuestion`: it raised, or returned with an optional text. -/
inductive GenResult
  | failure
  | response (text : Option String)
deriving DecidableEq

/-- `askFollowUpQuestion` (geminiService.ts lines 77-114) as a function of
its arguments and of the request outcome: `return response.text || fallback`
inside a try/catch that converts any raised error to a fixed string. -/
def askFollowUpQuestion (_historyContext : String)
    (_chatHistory : List ChatMessage) (_language : AppLanguage)
    (outcome : GenResult) : String :=
  match outcome with
  | .failure => chatErrorFallback
  | .response none => emptyResponseFallback
  | .response (some t) => if t = "" then emptyResponseFallback else t

/-- A `SpeechSynthesisUtterance` boundary event: its `name` and
`charIndex`. -/
structure BoundaryEvent where
  name : String
  charIndex : Nat
deriving DecidableEq

/-- The `utterance.onboundary` handler installed by `speakContent`
(App.tsx lines 180-185): on a word boundary, set the progress to
`min (charIndex / totalLength * 100) 100`. -/
def onboundaryStep (totalLength : Nat) (s : AppState) (ev : BoundaryEvent) :
    AppState :=
  if ev.name = "word" then
    let percent : ℚ := (ev.charIndex : ℚ) / (totalLength : ℚ) * 100
    { s with speechProgress := min percent 100 }
  else s

/-- The `utterance.onend` handler installed by `speakContent`
(App.tsx lines 187-191): clear the flags and force progress to 100. -/
def onendStep (s : AppState) : AppState :=
  { s with isSpeaking := false, speechProgress := 100, isPaused := false }

/-- The `utterance.onerror` handler installed by `speakContent`
(App.tsx lines 193-196): clear the flags. -/
def onerrorStep (s : AppState) : AppState :=
  { s with isSpeaking := false, isPaused := false }

/-- The sequence of progress values reported over a run of boundary
events, in order. -/
def progressTrace (totalLength : Nat) (s : AppState) :
    List BoundaryEvent → List ℚ
  | [] => []
  | ev :: evs =>
      let s2 := onboundaryStep totalLength s ev
      s2.speechProgress :: progressTrace totalLength s2 evs

/-- A list of naturals is sorted in non-decreasing order. -/
def nondecreasing : List Nat → Bool
  | [] => true
  | [_] => true
  | a :: b :: rest => decide (a ≤ b) && nondecreasing (b :: rest)

/-- Whether an effect is a Content Analyzer invocation. -/
def isAnalyzeRequest : Effect → Bool
  | .analyzeRequest _ _ => true
  | _ => false

/-- Whether an effect is a Conversational Responder invocation. -/
def isChatRequest : Effect → Bool
  | .chatRequest _ _ _ => true
  | _ => false

/-- Number of Content Analyzer invocations among a list of effects. -/
def countAnalyzeRequests (es : List Effect) : Nat :=
  (es.filter isAnalyzeRequest).length

/-- Number of Conversational Responder invocations among a list of
effects. -/
def countChatRequests (es : List Effect) : Nat :=
  (es.filter isChatRequest).length

/-! ### Claim C3: image intake validation -/

/-- Claim C3: LoadImage rejects exactly the invalid inputs and leaves the
stored image and LearningRecord untouched on rejection: a file whose MIME
type does not start with "image/" yields UnsupportedFormat without
changing `image`, `content` or `messages`; for an image file the outcome
is TooLarge if and only if the size strictly exceeds 10*1024*1024 bytes,
and on that rejection the stored image and content are unchanged. -/
theorem loadImage_validation (s : AppState) (file : UploadedFile)
    (rr : Except Unit String) :
    (strStartsWith file.type "image/" = false →
      (handleFileChange s file rr).2 = IntakeOutcome.unsupportedFormat ∧
      (handleFileChange s file rr).1.image = s.image ∧
      (handleFileChange s file rr).1.content = s.content ∧
      (handleFileChange s file rr).1.messages = s.messages) ∧
    (strStartsWith file.type "image/" = true →
      (((handleFileChange s file rr).2 = IntakeOutcome.tooLarge) ↔
        10 * 1024 * 1024 < file.size) ∧
      (10 * 1024 * 1024 < file.size →
        (handleFileChange s file rr).1.image = s.image ∧
        (handleFileChange s file rr).1.content = s.content ∧
        (handleFileChange s file rr).1.messages = s.messages)) := by
  refine ⟨fun h => by simp [handleFileChange, h], fun h => ?_⟩
  by_cases hsz : 10 * 1024 * 1024 < file.size
  · cases rr <;> simp [handleFileChange, h, hsz]
  · cases rr <;> simp [handleFileChange, h, hsz]

/-- A non-image file offered to intake. -/
def textFile : UploadedFile := { type := "text/plain", size := 5 }

/-- An image file of exactly 10*1024*1024 bytes. -/
def boundaryFile : UploadedFile := { type := "image/png", size := 10485760 }

/-- An image file one byte over the limit. -/
def overFile : UploadedFile := { type := "image/png", size := 10485761 }

/-- Witness for C3 at concrete files: a text file is rejected as
UnsupportedFormat, the 10 MiB boundary file is not rejected as TooLarge,
and one byte more is. -/
theorem loadImage_validation_witness :
    (handleFileChange initialState textFile (Except.ok "b")).2 =
      IntakeOutcome.unsupportedFormat ∧
    ¬ (handleFileChange initialState boundaryFile (Except.ok "b")).2 =
      IntakeOutcome.tooLarge ∧
    (handleFileChange initialState overFile (Except.ok "b")).2 =
      IntakeOutcome.tooLarge :=
  ⟨((loadImage_validation initialState textFile (Except.ok "b")).1
      (by decide)).1,
   fun hcontra =>
     (by decide : ¬ (10 * 1024 * 1024 < boundaryFile.size))
       ((((loadImage_validation initialState boundaryFile (Except.ok "b")).2
            (by decide)).1).mp hcontra),
   (((loadImage_validation initialState overFile (Except.ok "b")).2
       (by decide)).1).mpr (by decide)⟩

/-! ### Claim C2: pause/resume on the narrator -/

/-- Claim C2 counterexample: in the idle narration state (not speaking,
not paused), `togglePause` is not a no-op — it flips the paused flag to
true, so the narration state is changed by the call. -/
theorem togglePause_idle_changes_state :
    initialState.isSpeaking = false ∧ initialState.isPaused = false ∧
    (togglePause initialState).1.isPaused = true :=
  ⟨rfl, rfl, rfl⟩

/-- Claim C2 (amended): `togglePause` is a strict toggle of the paused
flag: when paused it resumes (clearing the flag), and when not paused it
pauses (setting the flag) regardless of whether the narrator is speaking —
so a resume command is only ever issued while paused (Resume-when-not-
paused cannot occur), while Pause invoked when idle does change the paused
flag; the speaking flag and the progress are unchanged in all cases. -/
theorem togglePause_spec (s : AppState) :
    (togglePause s).1.isPaused = !s.isPaused ∧
    (togglePause s).1.isSpeaking = s.isSpeaking ∧
    (togglePause s).1.speechProgress = s.speechProgress ∧
    (togglePause s).2 =
      (if s.isPaused then [Effect.synthResume] else [Effect.synthPause]) := by
  cases hp : s.isPaused <;> simp [togglePause, hp]

/-! ### Claim C6: the responder never raises -/

/-- Claim C6: `askFollowUpQuestion` never raises: for every input it
returns a (nonempty) string — the model's text when present and nonempty,
a fixed fallback string when the underlying request fails, and a fixed
fallback string when the model returns no text. -/
theorem askFollowUp_never_raises (context : String)
    (history : List ChatMessage) (lang : AppLanguage) (outcome : GenResult) :
    askFollowUpQuestion context history lang outcome ≠ "" ∧
    (outcome = GenResult.failure →
      askFollowUpQuestion context history lang outcome = chatErrorFallback) ∧
    (∀ t : Option String, outcome = GenResult.response t →
      (t = none ∨ t = some "") →
      askFollowUpQuestion context history lang outcome =
        emptyResponseFallback) ∧
    (∀ txt : String, outcome = GenResult.response (some txt) → txt ≠ "" →
      askFollowUpQuestion context history lang outcome = txt) := by
  cases outcome with
  | failure =>
      refine ⟨?_, fun _ => rfl, ?_, ?_⟩
      · show chatErrorFallback ≠ ""
        decide
      · intro t ht
        cases ht
      · intro txt ht
        cases ht
  | response t =>
      cases t with
      | none =>
          refine ⟨?_, ?_, fun t2 ht h2 => rfl, ?_⟩
          · show emptyResponseFallback ≠ ""
            decide
          · intro h
            cases h
          · intro txt ht
            cases ht
      | some str =>
          by_cases hs : str = ""
          · subst hs
            refine ⟨?_, ?_, fun t2 ht h2 => ?_, fun txt ht hne => ?_⟩
            · have hred : askFollowUpQuestion context history lang
                  (GenResult.response (some "")) = emptyResponseFallback := by
                simp [askFollowUpQuestion]
              rw [hred]
              decide
            · intro h
              cases h
            · simp [askFollowUpQuestion]
            · injection ht with h3
              injection h3 with h4
              exact absurd h4.symm hne
          · refine ⟨?_, ?_, fun t2 ht h2 => ?_, fun txt ht hne => ?_⟩
            · show (if str = "" then emptyResponseFallback else str) ≠ ""
              rw [if_neg hs]
              exact hs
            · intro h
              cases h
            · injection ht with h3
              rcases h2 with h2 | h2
              · rw [← h3] at h2
                simp at h2
              · rw [← h3] at h2
                simp at h2
                exact absurd h2 hs
            · injection ht with h3
              injection h3 with h4
              subst h4
              exact if_neg hs

/-- Witness for C6 at concrete outcomes: a raised request yields the
connection fallback, an empty model response yields the no-answer
fallback, and a nonempty model text is returned verbatim. -/
theorem askFollowUp_never_raises_witness :
    askFollowUpQuestion "ctx" [] AppLanguage.english GenResult.failure =
      chatErrorFallback ∧
    askFollowUpQuestion "ctx" [] AppLanguage.english
      (GenResult.response none) = emptyResponseFallback ∧
    askFollowUpQuestion "ctx" [] AppLanguage.english
      (GenResult.response (some "Chlorophyll absorbs light.")) =
      "Chlorophyll absorbs light." :=
  ⟨(askFollowUp_never_raises "ctx" [] AppLanguage.english
      GenResult.failure).2.1 rfl,
   (askFollowUp_never_raises "ctx" [] AppLanguage.english
      (GenResult.response none)).2.2.1 none rfl (Or.inl rfl),
   (askFollowUp_never_raises "ctx" [] AppLanguage.english
      (GenResult.response (some "Chlorophyll absorbs light."))).2.2.2
      "Chlorophyll absorbs light." rfl (by decide)⟩

/-! ### Claim C7: narration sessions are linearized -/

/-- Claim C7: starting a new narration always first terminates any
existing session: the emitted effect sequence is exactly a synthesizer
cancel followed by speaking the fresh utterance, the intermediate stopped
state has progress 0 and no live utterance, and the new session starts
from progress 0 with exactly one live utterance. -/
theorem narration_linearized (s : AppState) (text : String)
    (forceLang : Option String) :
    (speakContent s text forceLang).2 =
      [Effect.synthCancel,
       Effect.synthSpeak
         { text := text, lang := resolveLang s forceLang,
           rate := 9 / 10, volume := s.speechVolume }] ∧
    (stopSpeaking s).1.speechProgress = 0 ∧
    (stopSpeaking s).1.isSpeaking = false ∧
    (stopSpeaking s).1.currentUtterance = none ∧
    (speakContent s text forceLang).1 =
      { (stopSpeaking s).1 with
          currentUtterance := some
            { text := text, lang := resolveLang s forceLang,
              rate := 9 / 10, volume := s.speechVolume },
          isSpeaking := true } ∧
    (speakContent s text forceLang).1.speechProgress = 0 ∧
    (speakContent s text forceLang).1.isSpeaking = true ∧
    (speakContent s text forceLang).1.isPaused = false ∧
    (speakContent s text forceLang).1.currentUtterance = some
      { text := text, lang := resolveLang s forceLang,
        rate := 9 / 10, volume := s.speechVolume } := by
  refine ⟨rfl, rfl, rfl, rfl, rfl, rfl, rfl, rfl, rfl⟩

/-! ### Concrete states used by witnesses -/

/-- A sample learning record. -/
def sampleContent : LearningContent :=
  { topic := "Photosynthesis"
    short_reading := "Plants make food from light."
    simple_explanation := "Plants use sunlight to make sugar."
    key_points := ["Light", "Water", "Carbon dioxide"]
    «example» := "A leaf in the sun."
    quiz := "What do plants need?" }

/-- A state with an image loaded and no analysis in flight. -/
def readyState : AppState :=
  { initialState with image := some "imgdata" }

/-- A state with an image loaded and an analysis already in flight. -/
def inflightState : AppState :=
  { initialState with image := some "imgdata", loading := true }

/-- A state with a live utterance at volume 1. -/
def speakingState : AppState :=
  { initialState with
      isSpeaking := true
      currentUtterance := some
        { text := "hello", lang := "en-US", rate := 9 / 10, volume := 1 } }

/-- A state with content loaded and a question typed in the input. -/
def chatReadyState : AppState :=
  { initialState with
      content := some sampleContent
      chatInput := "What is chlorophyll?" }

/-- A state with content loaded whose input buffer is whitespace-only. -/
def blankInputState : AppState :=
  { initialState with content := some sampleContent, chatInput := "   " }

/-- A state with content loaded and a chat request already in flight. -/
def chatBusyState : AppState :=
  { initialState with
      content := some sampleContent
      chatLoading := true
      chatInput := "Why is the sky blue?" }

/-! ### Claim C1: at most one in-flight analysis -/

/-- Claim C1: issuing Analyze while an analysis is in flight is a no-op.
The Analyze button is the sole call site of `handleAnalyze`, and it is
disabled while `loading` is set: pressing it in any state with
`loading = true` changes nothing and emits no effect, so two rapid
Analyze presses from a ready state issue exactly one Content Analyzer
invocation. -/
theorem analyze_reentrant_guard :
    (∀ s : AppState, s.loading = true → clickAnalyze s = (s, [])) ∧
    (∀ (s : AppState) (img : String), s.image = some img →
      s.loading = false →
      countAnalyzeRequests
        ((clickAnalyze s).2 ++ (clickAnalyze (clickAnalyze s).1).2) = 1) := by
  constructor
  · intro s h
    simp [clickAnalyze, analyzeButtonDisabled, h]
  · intro s img himg hld
    simp [clickAnalyze, analyzeButtonDisabled, himg, hld, handleAnalyzeStart,
      stopSpeaking, countAnalyzeRequests, isAnalyzeRequest]

/-- Witness for C1: pressing Analyze in a concrete in-flight state is a
no-op, and two rapid presses from a concrete ready state produce exactly
one analyzer invocation. -/
theorem analyze_reentrant_guard_witness :
    clickAnalyze inflightState = (inflightState, []) ∧
    countAnalyzeRequests
      ((clickAnalyze readyState).2 ++
        (clickAnalyze (clickAnalyze readyState).1).2) = 1 :=
  ⟨analyze_reentrant_guard.1 inflightState rfl,
   analyze_reentrant_guard.2 readyState "imgdata" rfl rfl⟩

/-! ### Claim C4: analyze failure atomicity and the finally semantic -/

/-- Claim C4: when the Content Analyzer call fails, Analyze sets the
user-facing error message and leaves the stored LearningRecord and the
chat log exactly as they were before the call; and on every completion,
success or failure, the `loading` flag goes from true back to false. -/
theorem analyze_error_atomicity (s : AppState) (img : String)
    (himg : s.image = some img) :
    (handleAnalyzeStart s).1.loading = true ∧
    (handleAnalyzeStart s).1.content = s.content ∧
    (handleAnalyzeStart s).1.messages = s.messages ∧
    (∀ r : Except Unit LearningContent,
      (handleAnalyzeComplete (handleAnalyzeStart s).1 r).loading = false) ∧
    (handleAnalyzeComplete (handleAnalyzeStart s).1
        (Except.error ())).content = s.content ∧
    (handleAnalyzeComplete (handleAnalyzeStart s).1
        (Except.error ())).messages = s.messages ∧
    (handleAnalyzeComplete (handleAnalyzeStart s).1
        (Except.error ())).error = some analyzeErrorMsg := by
  have h1 : (handleAnalyzeStart s).1 =
      { s with loading := true, error := none, isSpeaking := false,
               isPaused := false, speechProgress := 0,
               currentUtterance := none } := by
    simp [handleAnalyzeStart, stopSpeaking, himg]
  rw [h1]
  refine ⟨rfl, rfl, rfl, ?_, rfl, rfl, rfl⟩
  intro r
  cases r <;> rfl

/-- Witness for C4 at a concrete ready state and a failing analyzer
call. -/
theorem analyze_error_atomicity_witness :
    (handleAnalyzeStart readyState).1.loading = true ∧
    (handleAnalyzeComplete (handleAnalyzeStart readyState).1
        (Except.error ())).loading = false ∧
    (handleAnalyzeComplete (handleAnalyzeStart readyState).1
        (Except.error ())).content = readyState.content ∧
    (handleAnalyzeComplete (handleAnalyzeStart readyState).1
        (Except.error ())).messages = readyState.messages ∧
    (handleAnalyzeComplete (handleAnalyzeStart readyState).1
        (Except.error ())).error = some analyzeErrorMsg :=
  ⟨(analyze_error_atomicity readyState "imgdata" rfl).1,
   (analyze_error_atomicity readyState "imgdata" rfl).2.2.2.1
     (Except.error ()),
   (analyze_error_atomicity readyState "imgdata" rfl).2.2.2.2.1,
   (analyze_error_atomicity readyState "imgdata" rfl).2.2.2.2.2.1,
   (analyze_error_atomicity readyState "imgdata" rfl).2.2.2.2.2.2⟩

/-! ### Claim C9: volume handling -/

/-- Claim C9 counterexample: `setVolume` does not clamp its input to
[0,1] — at the concrete input 2 the stored volume is 2, outside the
claimed range. -/
theorem setVolume_no_clamp :
    (setVolume initialState 2).speechVolume = 2 ∧
    ¬ (setVolume initialState 2).speechVolume ≤ 1 :=
  ⟨rfl, by decide⟩

/-- Claim C9 (amended): `setVolume` stores its argument verbatim, with no
clamping of its own; values delivered through the volume slider are
confined to [0,1] by the control's min/max attributes, and such stored
values lie in [0,1]; the stored value is applied to the in-flight
utterance when one exists (and the volume effect is inert when none does)
and is used as the volume of subsequently started narration sessions. -/
theorem setVolume_spec (s : AppState) (v : ℚ) :
    (setVolume s v).speechVolume = v ∧
    (sliderConstrained v →
      0 ≤ (setVolume s v).speechVolume ∧ (setVolume s v).speechVolume ≤ 1) ∧
    (∀ u : Utterance, s.currentUtterance = some u →
      (volumeEffectStep s).currentUtterance =
        some { u with volume := s.speechVolume }) ∧
    (s.currentUtterance = none → volumeEffectStep s = s) ∧
    (∀ (text : String) (fl : Option String),
      (speakContent (setVolume s v) text fl).1.currentUtterance =
        some { text := text, lang := resolveLang s fl,
               rate := 9 / 10, volume := v }) := by
  refine ⟨rfl, fun hc => ⟨hc.1, hc.2⟩, fun u hu => ?_, fun hn => ?_,
    fun text fl => ?_⟩
  · simp [volumeEffectStep, hu]
  · simp [volumeEffectStep, hn]
  · cases fl <;> simp [speakContent, stopSpeaking, setVolume, resolveLang]

/-- Witness for C9 (amended) at a concrete speaking state and the slider
value 1/2. -/
theorem setVolume_spec_witness :
    (setVolume speakingState (1 / 2)).speechVolume = 1 / 2 ∧
    (0 ≤ (setVolume speakingState (1 / 2)).speechVolume ∧
      (setVolume speakingState (1 / 2)).speechVolume ≤ 1) ∧
    (volumeEffectStep (setVolume speakingState (1 / 2))).currentUtterance =
      some { text := "hello", lang := "en-US", rate := 9 / 10,
             volume := 1 / 2 } ∧
    (speakContent (setVolume speakingState (1 / 2)) "next"
        none).1.currentUtterance =
      some { text := "next", lang := "en-US", rate := 9 / 10,
             volume := 1 / 2 } :=
  ⟨(setVolume_spec speakingState (1 / 2)).1,
   (setVolume_spec speakingState (1 / 2)).2.1 ⟨by norm_num, by norm_num⟩,
   (setVolume_spec (setVolume speakingState (1 / 2)) 0).2.2.1
     { text := "hello", lang := "en-US", rate := 9 / 10, volume := 1 } rfl,
   (setVolume_spec speakingState (1 / 2)).2.2.2.2 "next" none⟩

/-! ### Claim C5: SendMessage behaviour -/

/-- Claim C5: SendMessage is a no-op when the resolved text is blank or no
LearningRecord exists; otherwise it appends the user turn (before the
request is issued), clears the input, sets `chatLoading`, and the history
carried by the responder request is exactly the post-append chat log in
chronological order; on response it appends the assistant turn, clears
`chatLoading`, and starts narration of the response text. -/
theorem sendMessage_spec (s : AppState) (tOv : Option String) :
    (isBlank (resolveMessageText s tOv) = true →
      handleSendMessageStart s tOv = (s, [])) ∧
    (s.content = none → handleSendMessageStart s tOv = (s, [])) ∧
    (∀ c : LearningContent, s.content = some c →
      isBlank (resolveMessageText s tOv) = false →
      (handleSendMessageStart s tOv).1.messages =
        s.messages ++
          [{ role := ChatRole.user, text := resolveMessageText s tOv }] ∧
      (handleSendMessageStart s tOv).1.chatLoading = true ∧
      (handleSendMessageStart s tOv).1.chatInput = "" ∧
      (handleSendMessageStart s tOv).2 =
        [Effect.chatRequest (buildChatContext c)
          (s.messages ++
            [{ role := ChatRole.user, text := resolveMessageText s tOv }])
          s.language] ∧
      (handleSendMessageStart s tOv).2 =
        [Effect.chatRequest (buildChatContext c)
          (handleSendMessageStart s tOv).1.messages s.language]) ∧
    (∀ responseText : String,
      (handleSendMessageComplete s responseText).1.messages =
        s.messages ++
          [{ role := ChatRole.assistant, text := responseText }] ∧
      (handleSendMessageComplete s responseText).1.chatLoading = false ∧
      (handleSendMessageComplete s responseText).1.isSpeaking = true ∧
      (handleSendMessageComplete s responseText).1.speechProgress = 0 ∧
      (handleSendMessageComplete s responseText).1.currentUtterance =
        some { text := responseText, lang := voiceCode s.language,
               rate := 9 / 10, volume := s.speechVolume } ∧
      (handleSendMessageComplete s responseText).2 =
        [Effect.synthCancel,
         Effect.synthSpeak
           { text := responseText, lang := voiceCode s.language,
             rate := 9 / 10, volume := s.speechVolume }]) := by
  refine ⟨fun hb => ?_, fun hn => ?_, fun c hc hb => ?_,
    fun responseText => ?_⟩
  · simp [handleSendMessageStart, hb]
  · by_cases hb : isBlank (resolveMessageText s tOv) <;>
      simp [handleSendMessageStart, hn, hb]
  · simp [handleSendMessageStart, hb, hc]
  · simp [handleSendMessageComplete, speakContent, stopSpeaking, resolveLang]

/-- Witness for C5: a whitespace-only input is a no-op, sending without a
record is a no-op, and from a concrete ready state the user turn is
appended, the request carries it, and the response is appended and
narrated. -/
theorem sendMessage_spec_witness :
    handleSendMessageStart blankInputState none = (blankInputState, []) ∧
    handleSendMessageStart initialState (some "hello") =
      (initialState, []) ∧
    (handleSendMessageStart chatReadyState none).1.messages =
      [{ role := ChatRole.user, text := "What is chlorophyll?" }] ∧
    (handleSendMessageStart chatReadyState none).2 =
      [Effect.chatRequest (buildChatContext sampleContent)
        [{ role := ChatRole.user, text := "What is chlorophyll?" }]
        AppLanguage.english] ∧
    (handleSendMessageComplete chatReadyState
        "It is the green pigment.").1.messages =
      [{ role := ChatRole.assistant, text := "It is the green pigment." }] ∧
    (handleSendMessageComplete chatReadyState
        "It is the green pigment.").1.currentUtterance =
      some { text := "It is the green pigment.", lang := "en-US",
             rate := 9 / 10, volume := 1 } :=
  ⟨(sendMessage_spec blankInputState none).1 (by decide),
   (sendMessage_spec initialState (some "hello")).2.1 rfl,
   ((sendMessage_spec chatReadyState none).2.2.1 sampleContent rfl
      (by decide)).1,
   ((sendMessage_spec chatReadyState none).2.2.1 sampleContent rfl
      (by decide)).2.2.2.1,
   ((sendMessage_spec chatReadyState none).2.2.2
      "It is the green pigment.").1,
   ((sendMessage_spec chatReadyState none).2.2.2
      "It is the green pigment.").2.2.2.2.1⟩

/-! ### Claim C10: SendMessage has no in-flight guard -/

/-- Claim C10: SendMessage has no in-flight guard: in any state with
`chatLoading = true`, a further send with non-blank resolved text and an
existing LearningRecord still appends another user turn and issues another
Conversational Responder request; the voice-capture result handler
reaches SendMessage directly with the same outcome. -/
theorem sendMessage_no_inflight_guard (s : AppState) (c : LearningContent)
    (tOv : Option String) (hc : s.content = some c)
    (_hl : s.chatLoading = true)
    (ht : isBlank (resolveMessageText s tOv) = false) :
    (handleSendMessageStart s tOv).1.messages =
      s.messages ++
        [{ role := ChatRole.user, text := resolveMessageText s tOv }] ∧
    countChatRequests (handleSendMessageStart s tOv).2 = 1 ∧
    (∀ transcript : String, isBlank transcript = false →
      countChatRequests (recognitionOnResult s transcript).2 = 1) := by
  refine ⟨?_, ?_, fun transcript htr => ?_⟩
  · simp [handleSendMessageStart, ht, hc]
  · simp [handleSendMessageStart, ht, hc, countChatRequests, isChatRequest]
  · simp [recognitionOnResult, handleSendMessageStart, resolveMessageText,
      htr, hc, countChatRequests, isChatRequest]

/-- Witness for C10 at a concrete state with a chat request in flight:
a typed send and a voice transcript each issue one more responder
request. -/
theorem sendMessage_no_inflight_guard_witness :
    chatBusyState.chatLoading = true ∧
    (handleSendMessageStart chatBusyState none).1.messages =
      [{ role := ChatRole.user, text := "Why is the sky blue?" }] ∧
    countChatRequests (handleSendMessageStart chatBusyState none).2 = 1 ∧
    countChatRequests
      (recognitionOnResult chatBusyState "What about red?").2 = 1 :=
  ⟨rfl,
   (sendMessage_no_inflight_guard chatBusyState sampleContent none rfl rfl
      (by decide)).1,
   (sendMessage_no_inflight_guard chatBusyState sampleContent none rfl rfl
      (by decide)).2.1,
   (sendMessage_no_inflight_guard chatBusyState sampleContent none rfl rfl
      (by decide)).2.2 "What about red?" (by decide)⟩

/-! ### Claim C8: narration progress reporting -/

/-- The progress value set on a word boundary is at least 0. -/
lemma word_percent_nonneg (len c : Nat) :
    0 ≤ min ((c : ℚ) / (len : ℚ) * 100) 100 :=
  le_min
    (mul_nonneg (div_nonneg (Nat.cast_nonneg c) (Nat.cast_nonneg len))
      (by norm_num))
    (by norm_num)

/-- The progress value set on a word boundary is monotone in the char
index. -/
lemma word_percent_mono (len : Nat) {c1 c2 : Nat} (h : c1 ≤ c2) :
    min ((c1 : ℚ) / (len : ℚ) * 100) 100 ≤
      min ((c2 : ℚ) / (len : ℚ) * 100) 100 := by
  refine min_le_min ?_ le_rfl
  have hc : (c1 : ℚ) ≤ (c2 : ℚ) := Nat.cast_le.mpr h
  have hinv : (0 : ℚ) ≤ ((len : ℚ))⁻¹ := inv_nonneg.mpr (Nat.cast_nonneg len)
  rw [div_eq_mul_inv, div_eq_mul_inv]
  exact mul_le_mul_of_nonneg_right
    (mul_le_mul_of_nonneg_right hc hinv) (by norm_num)

/-- A nondecreasing list stays nondecreasing after dropping its head. -/
lemma nondecreasing_tail {a : Nat} {l : List Nat}
    (h : nondecreasing (a :: l) = true) : nondecreasing l = true := by
  cases l with
  | nil => rfl
  | cons b l2 =>
      simp only [nondecreasing, Bool.and_eq_true, decide_eq_true_eq] at h
      exact h.2

/-- The first two elements of a nondecreasing list are ordered. -/
lemma nondecreasing_head {a b : Nat} {l : List Nat}
    (h : nondecreasing (a :: b :: l) = true) : a ≤ b := by
  simp only [nondecreasing, Bool.and_eq_true, decide_eq_true_eq] at h
  exact h.1

/-- If the boundary events arrive with nondecreasing char indices, the
progress values form a nondecreasing chain from the current progress,
provided the current progress is below the first event's word
percentage. -/
lemma progressTrace_chain (len : Nat) (evs : List BoundaryEvent) :
    ∀ s : AppState,
      nondecreasing (evs.map BoundaryEvent.charIndex) = true →
      (∀ e : BoundaryEvent, evs.head? = some e →
        s.speechProgress ≤ min ((e.charIndex : ℚ) / (len : ℚ) * 100) 100) →
      List.Chain (· ≤ ·) s.speechProgress (progressTrace len s evs) := by
  induction evs with
  | nil =>
      intro s _ _
      exact List.Chain.nil
  | cons ev rest ih =>
      intro s hmono hhead
      simp only [progressTrace]
      have hstep : s.speechProgress ≤ (onboundaryStep len s ev).speechProgress := by
        by_cases hw : ev.name = "word"
        · have := hhead ev rfl
          simp only [onboundaryStep, if_pos hw]
          exact this
        · simp only [onboundaryStep, if_neg hw]
          exact le_rfl
      refine List.Chain.cons hstep ?_
      refine ih (onboundaryStep len s ev) ?_ ?_
      · have : (ev :: rest).map BoundaryEvent.charIndex =
            ev.charIndex :: rest.map BoundaryEvent.charIndex := rfl
        rw [this] at hmono
        exact nondecreasing_tail hmono
      · intro e2 he2
        cases rest with
        | nil => cases he2
        | cons e1 rest2 =>
            have he : e2 = e1 := by
              injection he2 with h3
              exact h3.symm
            subst he
            have hord : ev.charIndex ≤ e2.charIndex := nondecreasing_head hmono
            by_cases hw : ev.name = "word"
            · have : (onboundaryStep len s ev).speechProgress =
                  min ((ev.charIndex : ℚ) / (len : ℚ) * 100) 100 := by
                simp [onboundaryStep, hw]
              rw [this]
              exact word_percent_mono len hord
            · have : (onboundaryStep len s ev).speechProgress =
                  s.speechProgress := by
                simp [onboundaryStep, hw]
              rw [this]
              exact le_trans (hhead ev rfl) (word_percent_mono len hord)

/-- Every reported progress value lies in [0, 100], provided the starting
progress does. -/
lemma progressTrace_bounds (len : Nat) (evs : List BoundaryEvent) :
    ∀ s : AppState, 0 ≤ s.speechProgress → s.speechProgress ≤ 100 →
      ∀ q ∈ progressTrace len s evs, 0 ≤ q ∧ q ≤ 100 := by
  induction evs with
  | nil =>
      intro s _ _ q hq
      simp [progressTrace] at hq
  | cons ev rest ih =>
      intro s h0 h100 q hq
      simp only [progressTrace, List.mem_cons] at hq
      have hs2 : 0 ≤ (onboundaryStep len s ev).speechProgress ∧
          (onboundaryStep len s ev).speechProgress ≤ 100 := by
        by_cases hw : ev.name = "word"
        · constructor
          · simp only [onboundaryStep, if_pos hw]
            exact word_percent_nonneg len ev.charIndex
          · simp only [onboundaryStep, if_pos hw]
            exact min_le_right _ _
        · simp only [onboundaryStep, if_neg hw]
          exact ⟨h0, h100⟩
      rcases hq with rfl | hq
      · exact hs2
      · exact ih (onboundaryStep len s ev) hs2.1 hs2.2 q hq

/-- Claim C8: over a single narration session starting at progress 0, the
progress values reported over the session's boundary events (delivered
with nondecreasing char indices) are clamped to [0, 100] and form a
monotonically nondecreasing sequence, and the natural-completion handler
sets the progress to exactly 100. -/
theorem narration_progress_spec (len : Nat) (s : AppState)
    (evs : List BoundaryEvent) (h0 : s.speechProgress = 0)
    (hmono : nondecreasing (evs.map BoundaryEvent.charIndex) = true) :
    List.Chain (· ≤ ·) s.speechProgress (progressTrace len s evs) ∧
    (∀ q ∈ progressTrace len s evs, 0 ≤ q ∧ q ≤ 100) ∧
    (∀ s2 : AppState, (onendStep s2).speechProgress = 100) := by
  refine ⟨?_, ?_, fun s2 => rfl⟩
  · refine progressTrace_chain len evs s hmono ?_
    intro e _
    rw [h0]
    exact word_percent_nonneg len e.charIndex
  · intro q hq
    refine progressTrace_bounds len evs s ?_ ?_ q hq
    · simp [h0]
    · simp [h0]

/-- A concrete run of boundary events with nondecreasing char indices,
matching narration of the 11-character text "Hello world". -/
def sampleEvents : List BoundaryEvent :=
  [{ name := "word", charIndex := 0 },
   { name := "word", charIndex := 6 },
   { name := "sentence", charIndex := 8 },
   { name := "word", charIndex := 11 }]

/-- Witness for C8 on a concrete event run over an 11-character text. -/
theorem narration_progress_spec_witness :
    initialState.speechProgress = 0 ∧
    nondecreasing (sampleEvents.map BoundaryEvent.charIndex) = true ∧
    List.Chain (· ≤ ·) initialState.speechProgress
      (progressTrace 11 initialState sampleEvents) ∧
    (∀ q ∈ progressTrace 11 initialState sampleEvents, 0 ≤ q ∧ q ≤ 100) ∧
    (onendStep initialState).speechProgress = 100 :=
  ⟨rfl, by decide,
   (narration_progress_spec 11 initialState sampleEvents rfl (by decide)).1,
   (narration_progress_spec 11 initialState sampleEvents rfl (by decide)).2.1,
   (narration_progress_spec 11 initialState sampleEvents rfl
      (by decide)).2.2 initialState⟩

end TalkToStudy
